import Mathlib

/-!
Verification of the SUMA content pipeline (src/suma/demo.py).

The script turns heterogeneous inputs (a URL, a list of uploaded files) into
one bounded context string and runs two LLM-backed operations on it
(summarize, answer a question).  All external effects (web fetch, file
reads, the chat-completion call) are modelled as an explicit environment of
Except-valued functions; each pipeline function additionally returns the
list of external calls it performed, so that short-circuit behaviour
("the model is not invoked") is observable.
-/

/-! ## Python string primitives used by the script -/

/-- Characters stripped by Python str.strip() (ASCII whitespace). -/
def pyIsSpace (c : Char) : Bool :=
  c = ' ' || c = '\t' || c = '\n' || c = '\r' || c = '\x0b' || c = '\x0c'

/-- Python str.strip(): drop leading and trailing whitespace. -/
def pyStrip (s : String) : String :=
  (((s.toList.dropWhile pyIsSpace).reverse.dropWhile pyIsSpace).reverse).asString

/-- Python str.lower() on one character (ASCII range, which covers paths and extensions). -/
def pyLowerChar (c : Char) : Char :=
  if 'A' ≤ c ∧ c ≤ 'Z' then Char.ofNat (c.toNat + 32) else c

/-- Python str.lower(). -/
def pyLower (s : String) : String :=
  (s.toList.map pyLowerChar).asString

/-- Python s[:n] — the prefix-take slice, counted in characters. -/
def pyTake (n : Nat) (s : String) : String :=
  (s.toList.take n).asString

/-- Python sep.join(parts). -/
def pyJoin (sep : String) : List String → String
  | [] => ""
  | [a] => a
  | a :: b :: rest => a ++ sep ++ pyJoin sep (b :: rest)

/-- Index of the last occurrence of a character in a list, if any. -/
def lastIdxOf (c : Char) (l : List Char) : Option Nat :=
  match l.reverse.findIdx? (fun x => x = c) with
  | none => none
  | some i => some (l.length - 1 - i)

/-- The extension component of os.path.splitext (posixpath.splitext): the part
of the basename from its last dot on, provided some character of the basename
before that dot is not itself a dot; otherwise the empty string. -/
def pySplitextExt (s : String) : String :=
  let l := s.toList
  match lastIdxOf '.' l with
  | none => ""
  | some d =>
    let start := match lastIdxOf '/' l with
      | none => 0
      | some i => i + 1
    if start ≤ d ∧ ((l.drop start).take (d - start)).any (fun ch => ch ≠ '.')
    then (l.drop d).asString
    else ""

/-- Python os.path.basename: everything after the last path separator. -/
def pyBasename (s : String) : String :=
  match lastIdxOf '/' s.toList with
  | none => s
  | some i => (s.toList.drop (i + 1)).asString

/-! ## Data model -/

/-- A Python exception, reduced to its class name and its str() message. -/
structure Exn where
  kind : String
  msg : String
deriving DecidableEq, Repr

/-- One chat message in the request payload. -/
structure Message where
  role : String
  content : String
deriving DecidableEq, Repr

/-- A gradio uploaded-file reference; the script only reads its .name (a path). -/
structure GFile where
  name : String
deriving DecidableEq, Repr

/-- One external call performed by the pipeline. -/
inductive Call where
  | fetch (url : String)
  | file (path : String)
  | chat (model : String) (msgs : List Message)
deriving DecidableEq, Repr

/-- The external world: web fetch, the three raw readers, and the
chat-completion endpoint.  Each returns a value or a raised exception. -/
structure Env where
  fetch_website_contents : String → Except Exn String
  readTxtRaw : String → Except Exn String
  pdfPages : String → Except Exn (List (Option String))
  docxParagraphs : String → Except Exn (List String)
  chat : String → List Message → Except Exn String

/-! ## File readers (demo.py lines 77-119) -/

/-- read_txt: open the file and read it (decode errors ignored by the script,
so the read either yields text or raises). -/
def read_txtT (env : Env) (path : String) : Except Exn String × List Call :=
  (env.readTxtRaw path, [Call.file path])

/-- read_pdf: extract text per page, a page with no extractable text
contributing the empty string, and join pages with a newline. -/
def read_pdfT (env : Env) (path : String) : Except Exn String × List Call :=
  ((env.pdfPages path).map (fun pages => pyJoin "\n" (pages.map (fun o => o.getD ""))),
   [Call.file path])

/-- read_docx: join the paragraph texts of the document with newlines. -/
def read_docxT (env : Env) (path : String) : Except Exn String × List Call :=
  ((env.docxParagraphs path).map (fun ps => pyJoin "\n" ps), [Call.file path])

/-- read_any_file: look up the lowercased extension in the EXT_READERS table
and dispatch on it, raising ValueError for an unsupported extension. -/
def read_any_fileT (env : Env) (path : String) : Except Exn String × List Call :=
  let ext := pySplitextExt (pyLower path)
  if ext = ".txt" then read_txtT env path
  else if ext = ".pdf" then read_pdfT env path
  else if ext = ".docx" then read_docxT env path
  else (Except.error ⟨"ValueError", "Unsupported file type: " ++ ext⟩, [])

/-- read_docx, value component. -/
def read_docx (env : Env) (path : String) : Except Exn String :=
  (read_docxT env path).1

/-- read_any_file, value component. -/
def read_any_file (env : Env) (path : String) : Except Exn String :=
  (read_any_fileT env path).1

/-- The text one file contributes to the aggregate: the loop body of
collect_files_text — the extracted text, or on any exception the bracketed
inline error entry naming the file and the exception message. -/
def fileEntry (env : Env) (f : GFile) : String :=
  match (read_any_fileT env f.name).1 with
  | Except.ok t => t
  | Except.error e => "[Error reading " ++ pyBasename f.name ++ ": " ++ e.msg ++ "]"

/-- collect_files_text: an empty upload list yields the empty string;
otherwise the loop appends one entry per file and the entries are joined
with a blank line. -/
def collect_files_textT (env : Env) (files : List GFile) : String × List Call :=
  if files = [] then ("", [])
  else
    let acc := files.foldl
      (fun (acc : List String × List Call) f =>
        (acc.1 ++ [fileEntry env f], acc.2 ++ (read_any_fileT env f.name).2))
      ([], [])
    (pyJoin "\n\n" acc.1, acc.2)

/-- collect_files_text, value component. -/
def collect_files_text (env : Env) (files : List GFile) : String :=
  (collect_files_textT env files).1

/-! ## Context assembly (demo.py lines 161-173) -/

/-- The fixed sentinel returned when neither source contributed content. -/
def NO_CONTENT_SENTINEL : String :=
  "[No content provided. Enter a URL or upload a document.]"

/-- make_context: fetch the stripped URL when non-blank (an exception being
replaced by a bracketed fetch-error string), append the aggregate file text
when non-empty, join parts with a blank line, and fall back to the sentinel
when no part was collected. -/
def make_contextT (env : Env) (url : String) (files : List GFile) : String × List Call :=
  let urlPart : List String × List Call :=
    if url ≠ "" ∧ pyStrip url ≠ "" then
      match env.fetch_website_contents (pyStrip url) with
      | Except.ok t => ([t], [Call.fetch (pyStrip url)])
      | Except.error e =>
        (["[Error fetching URL: " ++ e.msg ++ "]"], [Call.fetch (pyStrip url)])
    else ([], [])
  let ft := collect_files_textT env files
  let parts := urlPart.1 ++ (if ft.1 ≠ "" then [ft.1] else [])
  if parts = [] then (NO_CONTENT_SENTINEL, urlPart.2 ++ ft.2)
  else (pyJoin "\n\n" parts, urlPart.2 ++ ft.2)

/-- make_context, value component. -/
def make_context (env : Env) (url : String) (files : List GFile) : String :=
  (make_contextT env url files).1

/-! ## Prompting engine (demo.py lines 122-158) -/

def SYSTEM_SUMMARY : String :=
  "You are a concise, slightly snarky assistant. Summarize the provided content, ignoring boilerplate navigation. Respond in Markdown without code fences."

def SYSTEM_QA : String :=
  "You answer questions strictly using the provided content. If the answer is not present, say \x27I don\x27t know based on the provided content.\x27 Respond concisely in Markdown."

def MODEL_NAME : String := "gpt-4.1-mini"

/-- The message pair built by summarize_content after the 12,000-character
prefix truncation of the content. -/
def summarize_messages (content : String) : List Message :=
  let content := pyTake 12000 content
  [⟨"system", SYSTEM_SUMMARY⟩, ⟨"user", "Summarize this:\n\n" ++ content⟩]

/-- summarize_content: one chat-completion call on the truncated content. -/
def summarize_contentT (env : Env) (content : String) : Except Exn String × List Call :=
  (env.chat MODEL_NAME (summarize_messages content),
   [Call.chat MODEL_NAME (summarize_messages content)])

/-- summarize_content, value component. -/
def summarize_content (env : Env) (content : String) : Except Exn String :=
  (summarize_contentT env content).1

/-- The message pair built by answer_question after the same truncation. -/
def qa_messages (content question : String) : List Message :=
  let content := pyTake 12000 content
  [⟨"system", SYSTEM_QA⟩,
   ⟨"user", "Context:\n" ++ content ++ "\n\nQuestion: " ++ question⟩]

/-- answer_question: one chat-completion call on the truncated content and the question. -/
def answer_questionT (env : Env) (content question : String) : Except Exn String × List Call :=
  (env.chat MODEL_NAME (qa_messages content question),
   [Call.chat MODEL_NAME (qa_messages content question)])

/-- answer_question, value component. -/
def answer_question (env : Env) (content question : String) : Except Exn String :=
  (answer_questionT env content question).1

/-! ## Interaction controller (demo.py lines 175-189) -/

/-- on_summarize: build the context, try the summarize call, and render any
exception as a formatted error string. -/
def on_summarizeT (env : Env) (url : String) (files : List GFile) : String × List Call :=
  let c := make_contextT env url files
  let r := summarize_contentT env c.1
  (match r.1 with
   | Except.ok s => s
   | Except.error e => "**Error:** " ++ e.kind ++ ": " ++ e.msg,
   c.2 ++ r.2)

/-- on_summarize, value component. -/
def on_summarize (env : Env) (url : String) (files : List GFile) : String :=
  (on_summarizeT env url files).1

/-- on_qa: a blank question short-circuits with a fixed message before any
context assembly or model call; otherwise build the context, try the answer
call on the stripped question, and render any exception as a formatted
error string. -/
def on_qaT (env : Env) (url : String) (files : List GFile) (question : String) :
    String × List Call :=
  if pyStrip question = "" then ("Please enter a question.", [])
  else
    let c := make_contextT env url files
    let r := answer_questionT env c.1 (pyStrip question)
    (match r.1 with
     | Except.ok s => s
     | Except.error e => "**Error:** " ++ e.kind ++ ": " ++ e.msg,
     c.2 ++ r.2)

/-- on_qa, value component. -/
def on_qa (env : Env) (url : String) (files : List GFile) (question : String) : String :=
  (on_qaT env url files question).1

/-! ## Concrete environments for witnesses -/

/-- An environment where every external call succeeds. -/
def okEnv : Env where
  fetch_website_contents := fun _ => Except.ok "WEB TEXT"
  readTxtRaw := fun _ => Except.ok "The sky is blue."
  pdfPages := fun _ => Except.ok [some "page one"]
  docxParagraphs := fun _ => Except.ok ["Hello", "World"]
  chat := fun _ msgs => Except.ok (((msgs.map Message.content).getLast?).getD "")

/-- An environment whose chat call raises. -/
def chatErrEnv : Env :=
  { okEnv with chat := fun _ _ => Except.error ⟨"RuntimeError", "boom"⟩ }

/-- An environment whose web fetch raises. -/
def fetchErrEnv : Env :=
  { okEnv with fetch_website_contents := fun _ => Except.error ⟨"ConnectionError", "refused"⟩ }

/-- An environment whose web fetch succeeds with empty page text. -/
def emptyFetchEnv : Env :=
  { okEnv with fetch_website_contents := fun _ => Except.ok "" }

/-! ## Helper lemmas -/

/-- Stripping the empty string gives the empty string. -/
theorem pyStrip_empty : pyStrip "" = "" := rfl

/-- The truncation slice is literally the character-list prefix take. -/
theorem pyTake_toList (n : Nat) (s : String) :
    (pyTake n s).toList = s.toList.take n :=
  List.toList_asString _

/-- Length of the truncation slice. -/
theorem pyTake_length (n : Nat) (s : String) :
    (pyTake n s).length = min s.length n := by
  rw [pyTake, List.length_asString, List.length_take, Nat.min_comm]
  rfl

/-- A string no longer than the budget is left unchanged by the slice. -/
theorem pyTake_of_le (n : Nat) (s : String) (h : s.length ≤ n) :
    pyTake n s = s := by
  have hl : s.toList.length ≤ n := h
  rw [pyTake, List.take_of_length_le hl, String.asString_toList]

/-- Joining two parts with the blank-line separator never yields the empty string. -/
theorem append_sep_ne_empty (a b : String) : a ++ "\n\n" ++ b ≠ "" := by
  intro h
  have hl := congrArg String.length h
  rw [String.length_append, String.length_append] at hl
  simp at hl
  exact absurd hl.1.2 (by decide)

/-! ## Claims about the prompting engine -/

/-- Claim C2: the context text embedded in the user instruction by both
summarize_content and answer_question is the 12,000-character prefix-take of
the input, whose length is min(len(context), 12000). -/
theorem prompt_context_prefix_take (context question : String) :
    summarize_messages context =
      [⟨"system", SYSTEM_SUMMARY⟩,
       ⟨"user", "Summarize this:\n\n" ++ pyTake 12000 context⟩] ∧
    qa_messages context question =
      [⟨"system", SYSTEM_QA⟩,
       ⟨"user", "Context:\n" ++ pyTake 12000 context ++ "\n\nQuestion: " ++ question⟩] ∧
    (pyTake 12000 context).toList = context.toList.take 12000 ∧
    (pyTake 12000 context).length = min context.length 12000 ∧
    (pyTake 12000 context).length ≤ 12000 := by
  refine ⟨rfl, rfl, pyTake_toList 12000 context, pyTake_length 12000 context, ?_⟩
  rw [pyTake_length]
  exact Nat.min_le_right _ _

/-- Claim C8: the user instruction forwarded to the model by the summarize
operation is exactly the fixed header "Summarize this:" plus a blank line,
followed by the (possibly truncated) context; a context within the budget is
embedded verbatim, and the chat call receives exactly these messages. -/
theorem summarize_user_instruction (env : Env) (context : String) :
    (summarize_contentT env context).2 =
      [Call.chat MODEL_NAME (summarize_messages context)] ∧
    (summarize_messages context).map Message.content =
      [SYSTEM_SUMMARY, "Summarize this:\n\n" ++ pyTake 12000 context] ∧
    (context.length ≤ 12000 →
      (summarize_messages context).map Message.content =
        [SYSTEM_SUMMARY, "Summarize this:\n\n" ++ context]) := by
  refine ⟨rfl, rfl, fun h => ?_⟩
  rw [show (summarize_messages context).map Message.content =
        [SYSTEM_SUMMARY, "Summarize this:\n\n" ++ pyTake 12000 context] from rfl,
      pyTake_of_le 12000 context h]

/-- Claim C8 witness: for the context "The sky is blue." the forwarded user
instruction is exactly "Summarize this:" plus a blank line plus that text. -/
theorem summarize_user_instruction_witness :
    String.length "The sky is blue." ≤ 12000 ∧
    (summarize_messages "The sky is blue.").map Message.content =
      [SYSTEM_SUMMARY, "Summarize this:\n\nThe sky is blue."] := by
  refine ⟨by decide, ?_⟩
  have h := (summarize_user_instruction okEnv "The sky is blue.").2.2 (by decide)
  simpa using h

/-- Claim C9: read_docx returns the paragraph texts of the document joined
with single newlines. -/
theorem read_docx_joins_paragraphs (env : Env) (path : String) (ps : List String)
    (h : env.docxParagraphs path = Except.ok ps) :
    read_docx env path = Except.ok (pyJoin "\n" ps) := by
  rw [read_docx, read_docxT]
  simp [h, Except.map]

/-- Claim C9 witness: a document with paragraphs Hello and World reads back
as exactly the two words separated by one newline. -/
theorem read_docx_joins_paragraphs_witness :
    okEnv.docxParagraphs "d.docx" = Except.ok ["Hello", "World"] ∧
    read_docx okEnv "d.docx" = Except.ok "Hello\nWorld" := by
  constructor
  · rfl
  · have h := read_docx_joins_paragraphs okEnv "d.docx" ["Hello", "World"] rfl
    simpa using h

/-- Claim C6: read_any_file on an extension outside the supported table fails
with the ValueError whose message carries the offending extension, and on a
supported extension dispatches to the matching format-specific reader. -/
theorem read_any_file_dispatch (env : Env) (path : String) :
    (pySplitextExt (pyLower path) ∉ [".txt", ".pdf", ".docx"] →
      read_any_fileT env path =
        (Except.error ⟨"ValueError",
          "Unsupported file type: " ++ pySplitextExt (pyLower path)⟩, [])) ∧
    (pySplitextExt (pyLower path) = ".txt" →
      read_any_fileT env path = read_txtT env path) ∧
    (pySplitextExt (pyLower path) = ".pdf" →
      read_any_fileT env path = read_pdfT env path) ∧
    (pySplitextExt (pyLower path) = ".docx" →
      read_any_fileT env path = read_docxT env path) := by
  refine ⟨fun h => ?_, fun h => ?_, fun h => ?_, fun h => ?_⟩
  · simp only [List.mem_cons, List.not_mem_nil, or_false, not_or] at h
    rw [read_any_fileT]
    simp only [h.1, h.2.1, h.2.2, if_false]
  · rw [read_any_fileT]
    simp only [h, if_true]
  · rw [read_any_fileT]
    simp only [h]
    rw [if_neg (by decide)]
    simp
  · rw [read_any_fileT]
    simp only [h]
    rw [if_neg (by decide), if_neg (by decide)]
    simp

/-- Claim C6 witness: a .csv upload fails with the unsupported-type error
naming ".csv", and an uppercase .TXT path dispatches to the text reader. -/
theorem read_any_file_dispatch_witness :
    pySplitextExt (pyLower "data.csv") = ".csv" ∧
    read_any_fileT okEnv "data.csv" =
      (Except.error ⟨"ValueError", "Unsupported file type: .csv"⟩, []) ∧
    read_any_fileT okEnv "Dir/Note.TXT" = read_txtT okEnv "Dir/Note.TXT" := by
  refine ⟨by decide, ?_, ?_⟩
  · have h := (read_any_file_dispatch okEnv "data.csv").1 (by decide)
    simpa using h
  · exact (read_any_file_dispatch okEnv "Dir/Note.TXT").2.1 (by decide)

/-! ## Claims about short-circuits and inline errors -/

/-- Claim C4: on_qa with a blank or whitespace-only question returns exactly
the fixed prompt-for-input message and performs no external call at all:
neither context assembly (fetch, file reads) nor the model is invoked. -/
theorem on_qa_blank_question_short_circuits (env : Env) (url : String)
    (files : List GFile) (q : String) (h : pyStrip q = "") :
    on_qaT env url files q = ("Please enter a question.", []) := by
  rw [on_qaT, if_pos h]

/-- Claim C4 witness: both the empty question and a whitespace-only question
short-circuit with the fixed message and an empty call trace, even when a URL
and a file are supplied. -/
theorem on_qa_blank_question_short_circuits_witness :
    pyStrip "" = "" ∧ pyStrip "   " = "" ∧
    on_qaT okEnv "http://x" [⟨"a.txt"⟩] "" = ("Please enter a question.", []) ∧
    on_qaT okEnv "http://x" [⟨"a.txt"⟩] "   " = ("Please enter a question.", []) :=
  ⟨by decide, by decide,
   on_qa_blank_question_short_circuits okEnv "http://x" [⟨"a.txt"⟩] "" (by decide),
   on_qa_blank_question_short_circuits okEnv "http://x" [⟨"a.txt"⟩] "   " (by decide)⟩

/-- A string that begins with a non-empty piece is itself non-empty. -/
theorem append_ne_empty_left (a m b : String) (h : 0 < a.length) :
    a ++ m ++ b ≠ "" := by
  intro he
  have hl := congrArg String.length he
  rw [String.length_append, String.length_append,
      show ("" : String).length = 0 from rfl] at hl
  omega

/-- Claim C5: when the fetch of a non-blank URL raises, make_context returns
(instead of raising) the bracketed fetch-error string in place of the URL
content; with no files that string is the whole result, and with files the
assembly continues, joining the aggregate file text after it. -/
theorem make_context_fetch_error_inline (env : Env) (url : String)
    (files : List GFile) (e : Exn)
    (hu : pyStrip url ≠ "")
    (hf : env.fetch_website_contents (pyStrip url) = Except.error e) :
    make_context env url [] = "[Error fetching URL: " ++ e.msg ++ "]" ∧
    make_context env url files =
      (if collect_files_text env files = ""
       then "[Error fetching URL: " ++ e.msg ++ "]"
       else "[Error fetching URL: " ++ e.msg ++ "]" ++ "\n\n" ++
            collect_files_text env files) := by
  have hu0 : url ≠ "" := fun h0 => hu (by rw [h0]; rfl)
  constructor
  · simp only [make_context, make_contextT, if_pos (And.intro hu0 hu), hf]
    rw [show collect_files_textT env [] = ("", []) from rfl]
    simp [pyJoin]
  · simp only [make_context, make_contextT, if_pos (And.intro hu0 hu), hf,
               collect_files_text]
    by_cases hF : (collect_files_textT env files).1 = ""
    · simp [hF, pyJoin]
    · simp [hF, pyJoin]

/-- Claim C5 witness: a URL (with surrounding whitespace) whose fetch raises
ConnectionError yields exactly the bracketed inline error string. -/
theorem make_context_fetch_error_inline_witness :
    pyStrip " http://e " = "http://e" ∧
    fetchErrEnv.fetch_website_contents "http://e" =
      Except.error ⟨"ConnectionError", "refused"⟩ ∧
    make_context fetchErrEnv " http://e " [] = "[Error fetching URL: refused]" := by
  refine ⟨by decide, rfl, ?_⟩
  have h := (make_context_fetch_error_inline fetchErrEnv " http://e " []
    ⟨"ConnectionError", "refused"⟩ (by decide) rfl).1
  exact h.trans (by decide)

/-- Claim C10: for a non-blank question, the user message sent to the model
by the Q&A path is exactly "Context:" + newline + truncated context + blank
line + "Question: " + the question with surrounding whitespace stripped, and
the call trace shows the chat call receiving exactly these messages after
context assembly. -/
theorem qa_user_instruction (env : Env) (url : String) (files : List GFile)
    (q : String) (h : pyStrip q ≠ "") :
    (qa_messages (make_context env url files) (pyStrip q)).map Message.content =
      [SYSTEM_QA,
       "Context:\n" ++ pyTake 12000 (make_context env url files) ++
         "\n\nQuestion: " ++ pyStrip q] ∧
    (on_qaT env url files q).2 =
      (make_contextT env url files).2 ++
        [Call.chat MODEL_NAME
          (qa_messages (make_context env url files) (pyStrip q))] := by
  refine ⟨rfl, ?_⟩
  rw [on_qaT, if_neg h]
  rfl

set_option maxRecDepth 4096 in
/-- Claim C10 witness: for no sources and the question " why? ", the Q&A path
sends one chat call whose user message embeds the sentinel context and the
stripped question. -/
theorem qa_user_instruction_witness :
    pyStrip " why? " = "why?" ∧
    (qa_messages (make_context okEnv "" []) (pyStrip " why? ")).map Message.content =
      [SYSTEM_QA, "Context:\n" ++ NO_CONTENT_SENTINEL ++ "\n\nQuestion: why?"] ∧
    (on_qaT okEnv "" [] " why? ").2 =
      [Call.chat MODEL_NAME (qa_messages NO_CONTENT_SENTINEL "why?")] := by
  have h := qa_user_instruction okEnv "" [] " why? " (by decide)
  exact ⟨by decide, h.1.trans (by decide), h.2.trans (by decide)⟩

/-! ## Claim about file aggregation -/

/-- The texts accumulated by the collect_files_text loop are the per-file
entries in input order, independent of the accumulator. -/
theorem collect_foldl_texts (env : Env) (files : List GFile)
    (acc : List String × List Call) :
    (files.foldl
      (fun (acc : List String × List Call) f =>
        (acc.1 ++ [fileEntry env f], acc.2 ++ (read_any_fileT env f.name).2))
      acc).1 = acc.1 ++ files.map (fileEntry env) := by
  induction files generalizing acc with
  | nil => simp
  | cons f fs ih => simp [ih]

/-- Claim C7: collect_files_text processes the files independently in input
order and joins the per-file texts with a blank line, each entry being the
extracted text or, when the read fails, the single bracketed inline error
entry at that position. -/
theorem collect_files_text_join_in_order (env : Env) (files : List GFile) :
    collect_files_text env files = pyJoin "\n\n" (files.map (fileEntry env)) ∧
    ∀ f : GFile, fileEntry env f =
      (match read_any_file env f.name with
       | Except.ok t => t
       | Except.error e =>
         "[Error reading " ++ pyBasename f.name ++ ": " ++ e.msg ++ "]") := by
  constructor
  · rw [collect_files_text, collect_files_textT]
    by_cases hf : files = []
    · rw [if_pos hf, hf]
      rfl
    · rw [if_neg hf]
      simp only [collect_foldl_texts, List.nil_append]
  · intro f
    rfl

/-! ## Claims about context assembly and controller totality -/

/-- Case analysis of the value make_context returns: the URL part (fetched
text or inline fetch error) and the aggregate file text, joined by a blank
line, with the sentinel when neither is present. -/
theorem make_context_value (env : Env) (url : String) (files : List GFile) :
    make_context env url files =
      (if url ≠ "" ∧ pyStrip url ≠ "" then
        match env.fetch_website_contents (pyStrip url) with
        | Except.ok t =>
          if collect_files_text env files = "" then t
          else t ++ "\n\n" ++ collect_files_text env files
        | Except.error e =>
          if collect_files_text env files = ""
          then "[Error fetching URL: " ++ e.msg ++ "]"
          else "[Error fetching URL: " ++ e.msg ++ "]" ++ "\n\n" ++
               collect_files_text env files
      else
        if collect_files_text env files = "" then NO_CONTENT_SENTINEL
        else collect_files_text env files) := by
  simp only [collect_files_text]
  by_cases hcond : url ≠ "" ∧ pyStrip url ≠ ""
  · rw [if_pos hcond]
    cases hfetch : env.fetch_website_contents (pyStrip url) with
    | ok t =>
      by_cases hF : (collect_files_textT env files).1 = ""
      · simp [make_context, make_contextT, if_pos hcond, hfetch, hF, pyJoin]
      · simp [make_context, make_contextT, if_pos hcond, hfetch, hF, pyJoin]
    | error e =>
      by_cases hF : (collect_files_textT env files).1 = ""
      · simp [make_context, make_contextT, if_pos hcond, hfetch, hF, pyJoin]
      · simp [make_context, make_contextT, if_pos hcond, hfetch, hF, pyJoin]
  · rw [if_neg hcond]
    by_cases hF : (collect_files_textT env files).1 = ""
    · simp [make_context, make_contextT, if_neg hcond, hF, pyJoin]
    · simp [make_context, make_contextT, if_neg hcond, hF, pyJoin]

/-- Claim C3 counterexample: a fetch that succeeds but yields empty page
text makes make_context return the empty string for a non-blank URL with no
files, so make_context does return an empty string on some input. -/
theorem make_context_empty_counterexample :
    make_context emptyFetchEnv "http://e" [] = "" := by
  have h := make_context_value emptyFetchEnv "http://e" []
  exact h.trans (by decide)

/-- Claim C3 (amended): make_context("", []) returns exactly the sentinel;
when the URL is blank make_context never returns an empty string (both
sources absent yield the sentinel, never an empty string); an empty result
can occur only when a non-blank URL fetch succeeded with empty text and the
files contributed no text. -/
theorem make_context_sentinel_never_empty (env : Env) (url : String)
    (files : List GFile) :
    make_context env "" [] = NO_CONTENT_SENTINEL ∧
    (pyStrip url = "" → make_context env url files ≠ "") ∧
    (make_context env url files = "" →
      pyStrip url ≠ "" ∧
      env.fetch_website_contents (pyStrip url) = Except.ok "" ∧
      collect_files_text env files = "") := by
  refine ⟨rfl, ?_, ?_⟩
  · intro hs
    have hcond : ¬(url ≠ "" ∧ pyStrip url ≠ "") := fun hc => hc.2 hs
    rw [make_context_value, if_neg hcond]
    by_cases hF : collect_files_text env files = ""
    · rw [if_pos hF]
      decide
    · rw [if_neg hF]
      exact hF
  · intro hmc
    rw [make_context_value] at hmc
    by_cases hcond : url ≠ "" ∧ pyStrip url ≠ ""
    · rw [if_pos hcond] at hmc
      cases hfetch : env.fetch_website_contents (pyStrip url) with
      | ok t =>
        rw [hfetch] at hmc
        by_cases hF : collect_files_text env files = ""
        · simp only [if_pos hF] at hmc
          exact ⟨hcond.2, by rw [hmc], hF⟩
        · simp only [if_neg hF] at hmc
          exact absurd hmc (append_sep_ne_empty t _)
      | error e =>
        rw [hfetch] at hmc
        by_cases hF : collect_files_text env files = ""
        · simp only [if_pos hF] at hmc
          exact absurd hmc (append_ne_empty_left _ e.msg "]" (by decide))
        · simp only [if_neg hF] at hmc
          exact absurd hmc (append_sep_ne_empty _ _)
    · rw [if_neg hcond] at hmc
      by_cases hF : collect_files_text env files = ""
      · rw [if_pos hF] at hmc
        exact absurd hmc (by decide)
      · rw [if_neg hF] at hmc
        exact absurd hmc hF

/-- Claim C3 witness: no URL and no files yield the sentinel, and a blank
URL with an unreadable file still yields a non-empty result. -/
theorem make_context_sentinel_never_empty_witness :
    make_context okEnv "" [] = NO_CONTENT_SENTINEL ∧
    pyStrip " " = "" ∧
    make_context okEnv " " [⟨"b.csv"⟩] ≠ "" := by
  have h := make_context_sentinel_never_empty okEnv " " [⟨"b.csv"⟩]
  exact ⟨(make_context_sentinel_never_empty okEnv "" []).1, by decide,
         h.2.1 (by decide)⟩

/-- Claim C1: on_summarize and on_qa always return a displayable string (they
are total string-valued functions of the model): a successful model call is
returned verbatim, and a raised exception from the model call — the only
effect in the chain whose exception is not already rendered inline by context
assembly — is caught and rendered as the formatted error string rather than
propagated. -/
theorem controller_total_renders_errors (env : Env) (url : String)
    (files : List GFile) (q : String) :
    (∀ e, env.chat MODEL_NAME (summarize_messages (make_context env url files)) =
        Except.error e →
      on_summarize env url files = "**Error:** " ++ e.kind ++ ": " ++ e.msg) ∧
    (∀ s, env.chat MODEL_NAME (summarize_messages (make_context env url files)) =
        Except.ok s →
      on_summarize env url files = s) ∧
    (pyStrip q ≠ "" →
      (∀ e, env.chat MODEL_NAME
          (qa_messages (make_context env url files) (pyStrip q)) = Except.error e →
        on_qa env url files q = "**Error:** " ++ e.kind ++ ": " ++ e.msg) ∧
      (∀ s, env.chat MODEL_NAME
          (qa_messages (make_context env url files) (pyStrip q)) = Except.ok s →
        on_qa env url files q = s)) ∧
    (pyStrip q = "" → on_qa env url files q = "Please enter a question.") := by
  refine ⟨fun e he => ?_, fun s hs => ?_,
          fun hq => ⟨fun e he => ?_, fun s hs => ?_⟩, fun hq => ?_⟩
  · have he' : env.chat MODEL_NAME
        (summarize_messages (make_contextT env url files).1) = Except.error e := he
    simp only [on_summarize, on_summarizeT, summarize_contentT, he']
  · have hs' : env.chat MODEL_NAME
        (summarize_messages (make_contextT env url files).1) = Except.ok s := hs
    simp only [on_summarize, on_summarizeT, summarize_contentT, hs']
  · have he' : env.chat MODEL_NAME
        (qa_messages (make_contextT env url files).1 (pyStrip q)) = Except.error e := he
    rw [on_qa, on_qaT, if_neg hq]
    simp only [answer_questionT, he']
  · have hs' : env.chat MODEL_NAME
        (qa_messages (make_contextT env url files).1 (pyStrip q)) = Except.ok s := hs
    rw [on_qa, on_qaT, if_neg hq]
    simp only [answer_questionT, hs']
  · rw [on_qa, on_qaT, if_pos hq]

/-- Claim C1 witness: with a chat endpoint that raises RuntimeError("boom"),
both operations return the formatted error string; a blank question returns
the fixed prompt message. -/
theorem controller_total_renders_errors_witness :
    on_summarize chatErrEnv "" [] = "**Error:** RuntimeError: boom" ∧
    on_qa chatErrEnv "" [] "why" = "**Error:** RuntimeError: boom" ∧
    on_qa okEnv "" [] " " = "Please enter a question." := by
  have h1 := controller_total_renders_errors chatErrEnv "" [] "why"
  have h2 := controller_total_renders_errors okEnv "" [] " "
  exact ⟨h1.1 ⟨"RuntimeError", "boom"⟩ rfl,
         (h1.2.2.1 (by decide)).1 ⟨"RuntimeError", "boom"⟩ rfl,
         h2.2.2.2 (by decide)⟩
